import Mathlib

/-
Shallow embedding of the higgsfield_ai_mcp repository
(src/higgsfield_mcp/client.py and src/higgsfield_mcp/server.py).

The client methods are pure request builders: each returns the single
outbound HTTP Request the Python method issues.  Each facade callable
(tool or resource) is a pure function of its source parameters plus the
outcome of the awaited client call, modelled as
`Except ClientError JValue`; it returns the JSON envelope the Python
function serialises with json.dumps.
-/

/-- JSON values, as produced by the Python json module.  Numbers are
rationals so that the fixed motion strength 0.5 is exact. -/
inductive JValue where
  | null : JValue
  | bool : Bool → JValue
  | num : Rat → JValue
  | str : String → JValue
  | arr : List JValue → JValue
  | obj : List (String × JValue) → JValue

/-- Lookup of a key in an association list of object fields, mirroring
Python dict access (all objects built here have distinct keys). -/
def lookupField : List (String × JValue) → String → Option JValue
  | [], _ => none
  | (k, v) :: rest, key => if k = key then some v else lookupField rest key

/-- Field access on a JSON value: `d[k]` / `d.get(k)` on objects,
nothing on every other shape. -/
def jGet : JValue → String → Option JValue
  | .obj fields, key => lookupField fields key
  | _, _ => none

/-- Python truthiness of a JSON value: None, False, 0, empty string,
empty list and empty dict are falsy. -/
def jTruthy : JValue → Bool
  | .null => false
  | .bool b => b
  | .num q => if q = 0 then false else true
  | .str s => if s = "" then false else true
  | .arr [] => false
  | .arr (_ :: _) => true
  | .obj [] => false
  | .obj (_ :: _) => true

/-- Python comparison of a JSON value against a string literal:
true only when the value is that exact string. -/
def jEqStr (v : JValue) (s : String) : Bool :=
  match v with
  | .str t => if t = s then true else false
  | _ => false

/-- Python truthiness of an Optional[str]: None and the empty string
are falsy. -/
def optTruthy (o : Option String) : Bool :=
  match o with
  | none => false
  | some s => if s = "" then false else true

/-- Models the Python expression `o or ""` on an Optional[str]. -/
def strOrEmpty : Option String → String
  | none => ""
  | some s => s

/-- Lookup in a string-to-string header dict, `d.get(k)`. -/
def headerGet : List (String × String) → String → Option String
  | [], _ => none
  | (k, v) :: rest, key => if k = key then some v else headerGet rest key

/-- Lookup with default in a string-to-string dict, `d.get(k, dflt)`. -/
def headerGetD (d : List (String × String)) (key dflt : String) : String :=
  match headerGet d key with
  | some v => v
  | none => dflt

/-- One outbound HTTP request as issued by a client method: the verb,
the full URL, the headers attached, query parameters and the JSON body. -/
structure Request where
  method : String
  url : String
  headers : List (String × String)
  query : List (String × Int)
  body : Option JValue

/-- The client object: HiggsfieldClient.__init__ stores the base URL and
the fixed header dict; no other state exists. -/
structure HiggsfieldClient where
  base_url : String
  headers : List (String × String)

/-- HiggsfieldClient.__init__(api_key, secret, base_url): builds the
four-entry header dict.  No operation in the constructor can fail, so the
embedding is a total function. -/
def HiggsfieldClient.init (api_key secret base_url : String) : HiggsfieldClient :=
  { base_url := base_url
    headers := [
      ("hf-api-key", api_key),
      ("hf-secret", secret),
      ("Content-Type", "application/json"),
      ("Accept", "application/json")] }

/-- Default base URL of the client constructor. -/
def defaultBaseUrl : String := "https://platform.higgsfield.ai"

/-- HiggsfieldClient.generate_image: builds the POST request to
/v1/text2image/soul.  The params object always carries prompt,
width_and_height, enhance_prompt, quality and batch_size;
custom_reference_id and style_id are appended only when truthy; the
webhook object, when webhook_url is truthy, is nested INSIDE params with
the secret defaulting to the empty string. -/
def HiggsfieldClient.generate_image (c : HiggsfieldClient)
    (prompt quality : String) (batch_size : Int)
    (custom_reference_id style_id : Option String)
    (width_and_height : String) (enhance_prompt : Bool)
    (webhook_url webhook_secret : Option String) : Request :=
  let params0 : List (String × JValue) := [
    ("prompt", .str prompt),
    ("width_and_height", .str width_and_height),
    ("enhance_prompt", .bool enhance_prompt),
    ("quality", .str quality),
    ("batch_size", .num batch_size)]
  let params1 :=
    if optTruthy custom_reference_id then
      params0 ++ [("custom_reference_id", .str (strOrEmpty custom_reference_id))]
    else params0
  let params2 :=
    if optTruthy style_id then
      params1 ++ [("style_id", .str (strOrEmpty style_id))]
    else params1
  let params3 :=
    if optTruthy webhook_url then
      params2 ++ [("webhook", .obj [
        ("url", .str (strOrEmpty webhook_url)),
        ("secret", .str (strOrEmpty webhook_secret))])]
    else params2
  { method := "POST"
    url := c.base_url ++ "/v1/text2image/soul"
    headers := c.headers
    query := []
    body := some (.obj [("params", .obj params3)]) }

/-- The fixed placeholder prompt substituted by generate_video when the
caller supplies an empty prompt. -/
def genericVideoPrompt : String := "Cinematic video with natural motion"

/-- HiggsfieldClient.generate_video: builds the POST request to
/v1/image2video/dop.  An empty prompt is replaced by the fixed generic
placeholder; input_images and motions are arrays; the webhook object,
when webhook_url is truthy, is placed at the TOP LEVEL of the body,
sibling to params, never inside params. -/
def HiggsfieldClient.generate_video (c : HiggsfieldClient)
    (image_url motion_id prompt model : String)
    (webhook_url webhook_secret : Option String) : Request :=
  let prompt1 := if prompt = "" then genericVideoPrompt else prompt
  let params : JValue := .obj [
    ("model", .str model),
    ("prompt", .str prompt1),
    ("input_images", .arr [.obj [
      ("type", .str "image_url"),
      ("image_url", .str image_url)]]),
    ("motions", .arr [.obj [
      ("id", .str motion_id),
      ("strength", .num (1 / 2))]])]
  let body0 : List (String × JValue) := [("params", params)]
  let body1 :=
    if optTruthy webhook_url then
      body0 ++ [("webhook", .obj [
        ("url", .str (strOrEmpty webhook_url)),
        ("secret", .str (strOrEmpty webhook_secret))])]
    else body0
  { method := "POST"
    url := c.base_url ++ "/v1/image2video/dop"
    headers := c.headers
    query := []
    body := some (.obj body1) }

/-- HiggsfieldClient.create_character: POST to /v1/custom-references with
name and the input_images array built from image_urls in input order. -/
def HiggsfieldClient.create_character (c : HiggsfieldClient)
    (name : String) (image_urls : List String) : Request :=
  { method := "POST"
    url := c.base_url ++ "/v1/custom-references"
    headers := c.headers
    query := []
    body := some (.obj [
      ("name", .str name),
      ("input_images", .arr (image_urls.map (fun u =>
        .obj [("type", .str "image_url"), ("image_url", .str u)])))]) }

/-- HiggsfieldClient.get_job_results: GET /v1/job-sets/\x7bid\x7d. -/
def HiggsfieldClient.get_job_results (c : HiggsfieldClient)
    (job_set_id : String) : Request :=
  { method := "GET"
    url := c.base_url ++ "/v1/job-sets/" ++ job_set_id
    headers := c.headers
    query := []
    body := none }

/-- HiggsfieldClient.list_styles: GET /v1/text2image/soul-styles. -/
def HiggsfieldClient.list_styles (c : HiggsfieldClient) : Request :=
  { method := "GET"
    url := c.base_url ++ "/v1/text2image/soul-styles"
    headers := c.headers
    query := []
    body := none }

/-- HiggsfieldClient.list_motions: GET /v1/motions. -/
def HiggsfieldClient.list_motions (c : HiggsfieldClient) : Request :=
  { method := "GET"
    url := c.base_url ++ "/v1/motions"
    headers := c.headers
    query := []
    body := none }

/-- HiggsfieldClient.list_characters: GET /v1/custom-references/list with
page and page_size query parameters. -/
def HiggsfieldClient.list_characters (c : HiggsfieldClient)
    (page page_size : Int) : Request :=
  { method := "GET"
    url := c.base_url ++ "/v1/custom-references/list"
    headers := c.headers
    query := [("page", page), ("page_size", page_size)]
    body := none }

/-- HiggsfieldClient.get_character: GET /v1/custom-references/\x7bid\x7d. -/
def HiggsfieldClient.get_character (c : HiggsfieldClient)
    (character_id : String) : Request :=
  { method := "GET"
    url := c.base_url ++ "/v1/custom-references/" ++ character_id
    headers := c.headers
    query := []
    body := none }

/-- HiggsfieldClient.delete_character: DELETE /v1/custom-references/\x7bid\x7d. -/
def HiggsfieldClient.delete_character (c : HiggsfieldClient)
    (character_id : String) : Request :=
  { method := "DELETE"
    url := c.base_url ++ "/v1/custom-references/" ++ character_id
    headers := c.headers
    query := []
    body := none }

/-- Errors a client call can raise: a non-2xx upstream response
(httpx.HTTPStatusError raised by raise_for_status), a transport failure
(httpx.TransportError), or any other exception. -/
inductive ClientError where
  | upstreamStatus (code : Int) (respBody : String) : ClientError
  | transport (msg : String) : ClientError
  | other (msg : String) : ClientError

/-- Models str(e): the message string of a raised exception. -/
def errString : ClientError → String
  | .upstreamStatus code respBody =>
      "HTTP status " ++ toString code ++ ": " ++ respBody
  | .transport msg => msg
  | .other msg => msg

/-- Models type(e).__name__ for a client error. -/
def errTypeName : ClientError → String
  | .upstreamStatus _ _ => "HTTPStatusError"
  | .transport _ => "TransportError"
  | .other _ => "Exception"

/-- Models traceback.format_exc() at the point the facade catches the
client error; the exact runtime text is irrelevant to every claim, only
that the field is a string derived from the exception. -/
def tracebackText (e : ClientError) : String :=
  "Traceback (most recent call last): " ++ errString e

/-- The failure envelope shared by the tools generate_image,
create_character, get_generation_status and list_characters:
success false, str(e), and a fixed human-readable message. -/
def toolFailEnv (e : ClientError) (msg : String) : JValue :=
  .obj [
    ("success", .bool false),
    ("error", .str (errString e)),
    ("message", .str msg)]

/-- The failure envelope of the three resources: str(e) and a fixed
message, with no success flag. -/
def resourceFailEnv (e : ClientError) (msg : String) : JValue :=
  .obj [
    ("error", .str (errString e)),
    ("message", .str msg)]

/-- The envelope produced when reshaping a malformed upstream response
raises a lookup error inside the try block; the error text stands for
the str of the runtime KeyError/TypeError.  No claim depends on this
branch; it exists so the facade functions are total like the Python
code, whose except clause catches these exceptions too. -/
def pyFailEnv (msg : String) : JValue :=
  .obj [
    ("success", .bool false),
    ("error", .str "KeyError"),
    ("message", .str msg)]

/-- Same for the resources, which carry no success flag. -/
def pyResourceFailEnv (msg : String) : JValue :=
  .obj [
    ("error", .str "KeyError"),
    ("message", .str msg)]

/-- The generate_image tool (server.py): on a successful client call it
reads id, type, created_at and jobs from the job-set response and builds
the success envelope; any exception, from the client call or from a
missing response key, yields the failure envelope.  Its source
parameters prompt, quality, character_id and style_id only feed the
client call, captured by the companion request definition below. -/
def generate_image (result : Except ClientError JValue) : JValue :=
  match result with
  | .error e => toolFailEnv e "Failed to start image generation"
  | .ok r =>
    match jGet r "id", jGet r "type", jGet r "created_at", jGet r "jobs" with
    | some i, some t, some ca, some js =>
      .obj [
        ("success", .bool true),
        ("job_set_id", i),
        ("job_type", t),
        ("status", .str "Job started - use get_generation_status to check completion"),
        ("created_at", ca),
        ("jobs", js)]
    | _, _, _, _ => pyFailEnv "Failed to start image generation"

/-- The client request issued by the generate_image tool: forwards
prompt, quality, character_id as custom_reference_id and style_id, with
batch_size fixed at 1 and the remaining client defaults. -/
def generate_image_request (c : HiggsfieldClient)
    (prompt quality : String) (character_id style_id : Option String) : Request :=
  c.generate_image prompt quality 1 character_id style_id "2048x1152" false none none

/-- The quality-to-model dict literal of the generate_video tool. -/
def model_map : List (String × String) :=
  [("lite", "dop-lite"), ("turbo", "dop-turbo"), ("standard", "dop-preview")]

/-- Lookup with default in a string dict, modelling dict.get(k, dflt). -/
def dictGetD (d : List (String × String)) (key dflt : String) : String :=
  match d with
  | [] => dflt
  | (k, v) :: rest => if k = key then v else dictGetD rest key dflt

/-- model_map.get(quality, "dop-preview"): the quality-to-model
resolution of the generate_video tool. -/
def resolveVideoModel (quality : String) : String :=
  dictGetD model_map quality "dop-preview"

/-- bool(client.headers.get(key)): truthiness of a header value. -/
def headerTruthy (headers : List (String × String)) (key : String) : Bool :=
  match headerGet headers key with
  | none => false
  | some s => if s = "" then false else true

/-- The api_key_preview field of the generate_video debug_info: the
first 8 characters of the API-key header followed by an ellipsis, or
NOT SET when the header is missing or empty. -/
def apiKeyPreview (headers : List (String × String)) : String :=
  if headerTruthy headers "hf-api-key" then
    (headerGetD headers "hf-api-key" "").take 8 ++ "..."
  else "NOT SET"

/-- The generate_video tool (server.py): resolves the model from the
quality string, calls the client with `prompt or ""`, and builds the
success envelope from id, type, created_at and jobs; its except clause
builds an extended failure envelope with error_type, traceback and a
debug_info object echoing the inputs, the resolved model and a masked
credential preview. -/
def generate_video (c : HiggsfieldClient)
    (image_url motion_id : String) (prompt : Option String) (quality : String)
    (result : Except ClientError JValue) : JValue :=
  match result with
  | .error e =>
    .obj [
      ("success", .bool false),
      ("error", .str (errString e)),
      ("error_type", .str (errTypeName e)),
      ("traceback", .str (tracebackText e)),
      ("message", .str "Failed to start video generation"),
      ("debug_info", .obj [
        ("image_url", .str image_url),
        ("motion_id", .str motion_id),
        ("model", .str (resolveVideoModel quality)),
        ("prompt_provided", .bool (optTruthy prompt)),
        ("api_key_configured", .bool (headerTruthy c.headers "hf-api-key")),
        ("api_key_preview", .str (apiKeyPreview c.headers))])]
  | .ok r =>
    match jGet r "id", jGet r "type", jGet r "created_at", jGet r "jobs" with
    | some i, some t, some ca, some js =>
      .obj [
        ("success", .bool true),
        ("job_set_id", i),
        ("job_type", t),
        ("status", .str "Job started - use get_generation_status to check completion"),
        ("created_at", ca),
        ("jobs", js)]
    | _, _, _, _ => pyFailEnv "Failed to start video generation"

/-- The client request issued by the generate_video tool: the prompt is
`prompt or ""` and the model is resolveVideoModel quality; no webhook is
forwarded. -/
def generate_video_request (c : HiggsfieldClient)
    (image_url motion_id : String) (prompt : Option String) (quality : String) : Request :=
  c.generate_video image_url motion_id (strOrEmpty prompt)
    (resolveVideoModel quality) none none

/-- Modelled from the spec: the client method generate_talking_head is
absent from src/higgsfield_mcp/client.py (only its caller in server.py
is present).  Per the spec table row for generate_talking_head, the
submission either returns a job-set JSON value or fails; its outcome is
therefore the same abstract call outcome used for every other client
call. -/
abbrev TalkingHeadOutcome : Type := Except ClientError JValue

/-- The generate_talking_head tool (server.py): on a successful
submission it builds the success envelope from id, type, created_at and
jobs, echoing duration and quality; its except clause builds the failure
envelope with error_type and traceback. -/
def generate_talking_head (quality : String) (duration : Int)
    (result : TalkingHeadOutcome) : JValue :=
  match result with
  | .error e =>
    .obj [
      ("success", .bool false),
      ("error", .str (errString e)),
      ("error_type", .str (errTypeName e)),
      ("traceback", .str (tracebackText e)),
      ("message", .str "Failed to start talking head video generation")]
  | .ok r =>
    match jGet r "id", jGet r "type", jGet r "created_at", jGet r "jobs" with
    | some i, some t, some ca, some js =>
      .obj [
        ("success", .bool true),
        ("job_set_id", i),
        ("job_type", t),
        ("status", .str "Job started - use get_generation_status to check completion"),
        ("created_at", ca),
        ("jobs", js),
        ("duration", .num duration),
        ("quality", .str quality)]
    | _, _, _, _ => pyFailEnv "Failed to start talking head video generation"

/-- The create_character tool (server.py): on success it builds the
envelope from id, name, status and created_at with the fixed guidance
strings; any exception yields the failure envelope. -/
def create_character (result : Except ClientError JValue) : JValue :=
  match result with
  | .error e => toolFailEnv e "Failed to create character reference"
  | .ok r =>
    match jGet r "id", jGet r "name", jGet r "status", jGet r "created_at" with
    | some i, some n, some st, some ca =>
      .obj [
        ("success", .bool true),
        ("character_id", i),
        ("name", n),
        ("status", st),
        ("message", .str "Character creation started. Status will progress: not_ready -> queued -> in_progress -> completed"),
        ("created_at", ca),
        ("note", .str "Use list_characters tool or get_generation_status to check when ready")]
    | _, _, _, _ => pyFailEnv "Failed to create character reference"

/-- The four fixed messages derived by get_generation_status. -/
def completedMsg : String := "Generation complete! Download URLs above."

/-- The failure notice of get_generation_status. -/
def failedMsg : String := "One or more jobs failed."

/-- The content-filter notice of get_generation_status. -/
def nsfwMsg : String := "Content filter triggered - regenerate with different prompt."

/-- The still-processing notice of get_generation_status. -/
def processingMsg : String := "Still processing - check again in a few seconds."

/-- The derived-message rule of get_generation_status over the list of
job status values: all completed, else any failed, else any nsfw, else
still processing, checked in that order. -/
def statusMessage (statuses : List JValue) : String :=
  if ∀ s ∈ statuses, jEqStr s "completed" then completedMsg
  else if ∃ s ∈ statuses, jEqStr s "failed" then failedMsg
  else if ∃ s ∈ statuses, jEqStr s "nsfw" then nsfwMsg
  else processingMsg

/-- Reshaping of a completed job result inside get_generation_status:
job results min url, raw url and raw type become preview_url,
full_quality_url and type; a missing key raises and is modelled by
none. -/
def reshapeResults (results : JValue) : Option JValue :=
  match jGet results "min", jGet results "raw" with
  | some mn, some rw =>
    match jGet mn "url", jGet rw "url", jGet rw "type" with
    | some pu, some fu, some ty =>
      some (.obj [
        ("preview_url", pu),
        ("full_quality_url", fu),
        ("type", ty)])
    | _, _, _ => none
  | _, _ => none

/-- One job entry of the get_generation_status envelope: job_id and
status always, plus the reshaped results when job.get("results") is
truthy. -/
def buildJobInfo (job : JValue) : Option JValue :=
  match jGet job "id", jGet job "status" with
  | some jid, some st =>
    let rv := match jGet job "results" with
      | some v => v
      | none => JValue.null
    if jTruthy rv then
      match reshapeResults rv with
      | some rs => some (.obj [("job_id", jid), ("status", st), ("results", rs)])
      | none => none
    else
      some (.obj [("job_id", jid), ("status", st)])
  | _, _ => none

/-- The job loop of get_generation_status over the jobs array; a raise
on any job aborts the whole reshaping. -/
def buildJobInfos : List JValue → Option (List JValue)
  | [] => some []
  | j :: rest =>
    match buildJobInfo j with
    | some ji => (buildJobInfos rest).map (ji :: ·)
    | none => none

/-- The statuses comprehension of get_generation_status: the status
value of every job, a missing status key raising. -/
def extractStatuses : List JValue → Option (List JValue)
  | [] => some []
  | j :: rest =>
    match jGet j "status" with
    | some st => (extractStatuses rest).map (st :: ·)
    | none => none

/-- The get_generation_status tool (server.py): on success it rebuilds
the envelope with job_set_id, type, created_at, the reshaped jobs and
the derived message; any exception yields the failure envelope. -/
def get_generation_status (result : Except ClientError JValue) : JValue :=
  match result with
  | .error e => toolFailEnv e "Failed to retrieve job status"
  | .ok r =>
    match jGet r "id", jGet r "type", jGet r "created_at", jGet r "jobs" with
    | some i, some t, some ca, some (.arr jobs) =>
      match buildJobInfos jobs, extractStatuses jobs with
      | some jobInfos, some statuses =>
        .obj [
          ("success", .bool true),
          ("job_set_id", i),
          ("type", t),
          ("created_at", ca),
          ("jobs", .arr jobInfos),
          ("message", .str (statusMessage statuses))]
      | _, _ => pyFailEnv "Failed to retrieve job status"
    | _, _, _, _ => pyFailEnv "Failed to retrieve job status"

/-- One entry of the characters list built by the list_characters tool
and the characters resource: id, name, status and created_at are
required, thumbnail_url falls back to null via item.get. -/
def formatCharacter (item : JValue) : Option JValue :=
  match jGet item "id", jGet item "name", jGet item "status", jGet item "created_at" with
  | some i, some n, some st, some ca =>
    some (.obj [
      ("character_id", i),
      ("name", n),
      ("status", st),
      ("thumbnail_url", (jGet item "thumbnail_url").getD JValue.null),
      ("created_at", ca)])
  | _, _, _, _ => none

/-- The characters loop shared by the tool and the resource. -/
def formatCharacters : List JValue → Option (List JValue)
  | [] => some []
  | item :: rest =>
    match formatCharacter item with
    | some fc => (formatCharacters rest).map (fc :: ·)
    | none => none

/-- result.get("items", []) as a jobs list: the default when the key is
missing, the array elements when present, a raise on any other shape. -/
def itemsOrDefault (r : JValue) : Option (List JValue) :=
  match jGet r "items" with
  | none => some []
  | some (.arr l) => some l
  | some _ => none

/-- The list_characters tool (server.py): pages with page 1 and
page_size 50, formats every item and reports the count message; any
exception yields the failure envelope. -/
def list_characters (result : Except ClientError JValue) : JValue :=
  match result with
  | .error e => toolFailEnv e "Failed to list characters"
  | .ok r =>
    match itemsOrDefault r with
    | some items =>
      match formatCharacters items with
      | some characters =>
        .obj [
          ("success", .bool true),
          ("total", (jGet r "total").getD (JValue.num 0)),
          ("characters", .arr characters),
          ("message", .str ("Found " ++ toString characters.length ++ " character reference(s)"))]
      | none => pyFailEnv "Failed to list characters"
    | none => pyFailEnv "Failed to list characters"

/-- The client request issued by the list_characters tool. -/
def list_characters_request (c : HiggsfieldClient) : Request :=
  c.list_characters 1 50

/-- One entry of the styles resource: id, name and description are
required, preview_url falls back to null via style.get. -/
def formatStyle (style : JValue) : Option JValue :=
  match jGet style "id", jGet style "name", jGet style "description" with
  | some i, some n, some d =>
    some (.obj [
      ("style_id", i),
      ("name", n),
      ("description", d),
      ("preview_url", (jGet style "preview_url").getD JValue.null)])
  | _, _, _ => none

/-- The styles loop of the styles resource. -/
def formatStyles : List JValue → Option (List JValue)
  | [] => some []
  | s :: rest =>
    match formatStyle s with
    | some fs => (formatStyles rest).map (fs :: ·)
    | none => none

/-- The higgsfield styles resource (server.py, list_soul_styles): on
success it formats the style list with a usage string; any exception
yields the resource failure envelope, which has no success flag. -/
def list_soul_styles (result : Except ClientError (List JValue)) : JValue :=
  match result with
  | .error e => resourceFailEnv e "Failed to fetch styles"
  | .ok styles =>
    match formatStyles styles with
    | some formatted =>
      .obj [
        ("available_styles", .arr formatted),
        ("usage", .str "Use style_id parameter in generate_image tool")]
    | none => pyResourceFailEnv "Failed to fetch styles"

/-- One entry of the motions resource: id, name and description are
required, preview_url falls back to null and start_end_frame to false
via motion.get. -/
def formatMotion (motion : JValue) : Option JValue :=
  match jGet motion "id", jGet motion "name", jGet motion "description" with
  | some i, some n, some d =>
    some (.obj [
      ("motion_id", i),
      ("name", n),
      ("description", d),
      ("preview_url", (jGet motion "preview_url").getD JValue.null),
      ("start_end_frame", (jGet motion "start_end_frame").getD (JValue.bool false))])
  | _, _, _ => none

/-- The motions loop of the motions resource. -/
def formatMotions : List JValue → Option (List JValue)
  | [] => some []
  | m :: rest =>
    match formatMotion m with
    | some fm => (formatMotions rest).map (fm :: ·)
    | none => none

/-- The higgsfield motions resource (server.py, list_motion_presets):
on success it formats the motion list with a usage string; any exception
yields the resource failure envelope. -/
def list_motion_presets (result : Except ClientError (List JValue)) : JValue :=
  match result with
  | .error e => resourceFailEnv e "Failed to fetch motion presets"
  | .ok motions =>
    match formatMotions motions with
    | some formatted =>
      .obj [
        ("available_motions", .arr formatted),
        ("usage", .str "Use motion_id parameter in generate_video tool")]
    | none => pyResourceFailEnv "Failed to fetch motion presets"

/-- The higgsfield characters resource (server.py,
list_character_resources): pages with page 1 and page_size 100, formats
every item; any exception yields the resource failure envelope. -/
def list_character_resources (result : Except ClientError JValue) : JValue :=
  match result with
  | .error e => resourceFailEnv e "Failed to fetch characters"
  | .ok r =>
    match itemsOrDefault r with
    | some items =>
      match formatCharacters items with
      | some characters =>
        .obj [
          ("total_characters", (jGet r "total").getD (JValue.num 0)),
          ("characters", .arr characters),
          ("usage", .str "Use character_id parameter in generate_image tool")]
      | none => pyResourceFailEnv "Failed to fetch characters"
    | none => pyResourceFailEnv "Failed to fetch characters"

/-- The client request issued by the characters resource. -/
def list_character_resources_request (c : HiggsfieldClient) : Request :=
  c.list_characters 1 100

/-- Extracts a top-level field of a request body. -/
def bodyField (r : Request) (key : String) : Option JValue :=
  match r.body with
  | some b => jGet b key
  | none => none

/-- Extracts a field of the params object of a request body. -/
def bodyParamsField (r : Request) (key : String) : Option JValue :=
  match r.body with
  | some b =>
    match jGet b "params" with
    | some p => jGet p key
    | none => none
  | none => none

/-- The stub job-set response of the end-to-end generate_image scenario:
id j1, type soul, one queued job. -/
def stubImageResponse : JValue :=
  .obj [
    ("id", .str "j1"),
    ("type", .str "soul"),
    ("created_at", .str "2024-01-01T00:00:00Z"),
    ("jobs", .arr [.obj [("id", .str "job1"), ("status", .str "queued")]])]

/-- The envelope the scenario claim says generate_image yields, written
exactly from the claim text: success, job_set_id, job_type, created_at
and jobs, with no status field. -/
def claimedImageEnvelope : JValue :=
  .obj [
    ("success", .bool true),
    ("job_set_id", .str "j1"),
    ("job_type", .str "soul"),
    ("created_at", .str "2024-01-01T00:00:00Z"),
    ("jobs", .arr [.obj [("id", .str "job1"), ("status", .str "queued")]])]

/-- Permuting the job status list never changes the derived message:
each condition of statusMessage only inspects membership. -/
theorem statusMessage_perm_helper {l₁ l₂ : List JValue} (h : l₁.Perm l₂) :
    statusMessage l₁ = statusMessage l₂ := by
  have hmem : ∀ a : JValue, a ∈ l₁ ↔ a ∈ l₂ := fun a => h.mem_iff
  unfold statusMessage
  have h1 : (∀ s ∈ l₁, jEqStr s "completed") ↔ (∀ s ∈ l₂, jEqStr s "completed") := by
    constructor <;> intro hh s hs
    · exact hh s ((hmem s).mpr hs)
    · exact hh s ((hmem s).mp hs)
  have h2 : (∃ s ∈ l₁, jEqStr s "failed") ↔ (∃ s ∈ l₂, jEqStr s "failed") := by
    constructor <;> rintro ⟨s, hs, he⟩
    · exact ⟨s, (hmem s).mp hs, he⟩
    · exact ⟨s, (hmem s).mpr hs, he⟩
  have h3 : (∃ s ∈ l₁, jEqStr s "nsfw") ↔ (∃ s ∈ l₂, jEqStr s "nsfw") := by
    constructor <;> rintro ⟨s, hs, he⟩
    · exact ⟨s, (hmem s).mp hs, he⟩
    · exact ⟨s, (hmem s).mpr hs, he⟩
  exact if_congr h1 rfl (if_congr h2 rfl (if_congr h3 rfl rfl))

/-- C1: for every tool and resource callable of the facade and every
error raised by the underlying client call (upstream non-2xx status,
transport failure, or any other exception), the callable returns the
JSON failure envelope: success false with the error string and a fixed
context message for the six tools, error string and fixed message with
no success flag for the three resources.  Every callable of the
embedding is a total function on all nine cases, so no raised fault
crosses the host boundary. -/
theorem facade_error_containment (e : ClientError) (c : HiggsfieldClient)
    (image_url motion_id quality th_quality : String) (prompt : Option String)
    (duration : Int) :
    (jGet (generate_image (.error e)) "success" = some (.bool false)
      ∧ jGet (generate_image (.error e)) "error" = some (.str (errString e))
      ∧ jGet (generate_image (.error e)) "message"
          = some (.str "Failed to start image generation"))
    ∧ (jGet (generate_video c image_url motion_id prompt quality (.error e)) "success"
          = some (.bool false)
      ∧ jGet (generate_video c image_url motion_id prompt quality (.error e)) "error"
          = some (.str (errString e))
      ∧ jGet (generate_video c image_url motion_id prompt quality (.error e)) "message"
          = some (.str "Failed to start video generation"))
    ∧ (jGet (generate_talking_head th_quality duration (.error e)) "success"
          = some (.bool false)
      ∧ jGet (generate_talking_head th_quality duration (.error e)) "error"
          = some (.str (errString e))
      ∧ jGet (generate_talking_head th_quality duration (.error e)) "message"
          = some (.str "Failed to start talking head video generation"))
    ∧ (jGet (create_character (.error e)) "success" = some (.bool false)
      ∧ jGet (create_character (.error e)) "error" = some (.str (errString e))
      ∧ jGet (create_character (.error e)) "message"
          = some (.str "Failed to create character reference"))
    ∧ (jGet (get_generation_status (.error e)) "success" = some (.bool false)
      ∧ jGet (get_generation_status (.error e)) "error" = some (.str (errString e))
      ∧ jGet (get_generation_status (.error e)) "message"
          = some (.str "Failed to retrieve job status"))
    ∧ (jGet (list_characters (.error e)) "success" = some (.bool false)
      ∧ jGet (list_characters (.error e)) "error" = some (.str (errString e))
      ∧ jGet (list_characters (.error e)) "message"
          = some (.str "Failed to list characters"))
    ∧ (jGet (list_soul_styles (.error e)) "error" = some (.str (errString e))
      ∧ jGet (list_soul_styles (.error e)) "message"
          = some (.str "Failed to fetch styles")
      ∧ jGet (list_soul_styles (.error e)) "success" = none)
    ∧ (jGet (list_motion_presets (.error e)) "error" = some (.str (errString e))
      ∧ jGet (list_motion_presets (.error e)) "message"
          = some (.str "Failed to fetch motion presets")
      ∧ jGet (list_motion_presets (.error e)) "success" = none)
    ∧ (jGet (list_character_resources (.error e)) "error" = some (.str (errString e))
      ∧ jGet (list_character_resources (.error e)) "message"
          = some (.str "Failed to fetch characters")
      ∧ jGet (list_character_resources (.error e)) "success" = none) := by
  repeat' apply And.intro
  all_goals rfl

/-- C2: the outbound generate_video request built by the client carries
the fixed non-empty placeholder prompt when the caller supplies an empty
or omitted prompt, carries a non-empty caller prompt unchanged, and its
prompt field is never the empty string. -/
theorem generate_video_prompt_never_empty (c : HiggsfieldClient)
    (image_url motion_id model : String) (wu ws : Option String) :
    bodyParamsField (c.generate_video image_url motion_id "" model wu ws) "prompt"
        = some (.str genericVideoPrompt)
    ∧ (∀ prompt, prompt ≠ "" →
        bodyParamsField (c.generate_video image_url motion_id prompt model wu ws) "prompt"
          = some (.str prompt))
    ∧ (∀ prompt,
        bodyParamsField (c.generate_video image_url motion_id prompt model wu ws) "prompt"
          ≠ some (.str "")) := by
  refine ⟨?_, fun prompt hp => ?_, fun prompt => ?_⟩
  · cases hwu : optTruthy wu <;>
      simp [HiggsfieldClient.generate_video, bodyParamsField, jGet, lookupField, hwu]
  · cases hwu : optTruthy wu <;>
      simp [HiggsfieldClient.generate_video, bodyParamsField, jGet, lookupField, hwu, hp]
  · by_cases hp : prompt = ""
    · subst hp
      cases hwu : optTruthy wu <;>
        simp [HiggsfieldClient.generate_video, bodyParamsField, jGet, lookupField, hwu,
          genericVideoPrompt]
    · cases hwu : optTruthy wu <;>
        simp [HiggsfieldClient.generate_video, bodyParamsField, jGet, lookupField, hwu, hp]

/-- Witness for C2 at a concrete non-empty prompt. -/
theorem generate_video_prompt_never_empty_witness :
    bodyParamsField ((HiggsfieldClient.init "k" "s" defaultBaseUrl).generate_video
        "https://img" "m1" "sunset" "dop-preview" none none) "prompt"
      = some (.str "sunset") :=
  (generate_video_prompt_never_empty (HiggsfieldClient.init "k" "s" defaultBaseUrl)
    "https://img" "m1" "dop-preview" none none).2.1 "sunset" (by decide)

/-- C3: the quality-to-model resolution of the generate_video tool is
total on strings: lite and turbo map to their backend identifiers and
every other string, standard and unrecognized values included, maps to
dop-preview without erroring. -/
theorem video_quality_model_total :
    resolveVideoModel "lite" = "dop-lite"
    ∧ resolveVideoModel "turbo" = "dop-turbo"
    ∧ resolveVideoModel "standard" = "dop-preview"
    ∧ ∀ quality, quality ≠ "lite" → quality ≠ "turbo" →
        resolveVideoModel quality = "dop-preview" := by
  refine ⟨rfl, rfl, rfl, fun q h1 h2 => ?_⟩
  unfold resolveVideoModel dictGetD model_map
  simp only [dictGetD]
  rw [if_neg (Ne.symm h1), if_neg (Ne.symm h2)]
  by_cases h3 : q = "standard" <;> simp [h3]

/-- Witness for C3 at an unrecognized quality string. -/
theorem video_quality_model_total_witness :
    resolveVideoModel "4k-ultra" = "dop-preview" :=
  video_quality_model_total.2.2.2 "4k-ultra" (by decide) (by decide)

/-- C4: the derived message of get_generation_status is a pure function
of the multiset of job statuses, evaluated in the fixed precedence
order: all completed gives the completion message, else any failed gives
the failure message, else any nsfw gives the content-filter message,
else the still-processing message; the last conjunct shows invariance
under permutation, so only the multiset of statuses matters. -/
theorem status_message_precedence (statuses : List JValue) :
    ((∀ s ∈ statuses, jEqStr s "completed") → statusMessage statuses = completedMsg)
    ∧ (¬ (∀ s ∈ statuses, jEqStr s "completed") → (∃ s ∈ statuses, jEqStr s "failed") →
        statusMessage statuses = failedMsg)
    ∧ (¬ (∀ s ∈ statuses, jEqStr s "completed") → ¬ (∃ s ∈ statuses, jEqStr s "failed") →
        (∃ s ∈ statuses, jEqStr s "nsfw") → statusMessage statuses = nsfwMsg)
    ∧ (¬ (∀ s ∈ statuses, jEqStr s "completed") → ¬ (∃ s ∈ statuses, jEqStr s "failed") →
        ¬ (∃ s ∈ statuses, jEqStr s "nsfw") → statusMessage statuses = processingMsg)
    ∧ (∀ l, statuses.Perm l → statusMessage statuses = statusMessage l) := by
  refine ⟨fun h1 => ?_, fun h1 h2 => ?_, fun h1 h2 h3 => ?_, fun h1 h2 h3 => ?_,
    fun l hp => statusMessage_perm_helper hp⟩
  · rw [statusMessage, if_pos h1]
  · rw [statusMessage, if_neg h1, if_pos h2]
  · rw [statusMessage, if_neg h1, if_neg h2, if_pos h3]
  · rw [statusMessage, if_neg h1, if_neg h2, if_neg h3]

/-- Witness for C4: a mixed set where failed beats completed, an nsfw
set with no failed, and a permutation leaving the message unchanged. -/
theorem status_message_precedence_witness :
    statusMessage [JValue.str "completed", JValue.str "failed"] = failedMsg
    ∧ statusMessage [JValue.str "nsfw", JValue.str "queued"] = nsfwMsg
    ∧ statusMessage [JValue.str "completed", JValue.str "failed"]
        = statusMessage [JValue.str "failed", JValue.str "completed"] :=
  ⟨(status_message_precedence [JValue.str "completed", JValue.str "failed"]).2.1
      (by decide) (by decide),
   (status_message_precedence [JValue.str "nsfw", JValue.str "queued"]).2.2.1
      (by decide) (by decide) (by decide),
   (status_message_precedence [JValue.str "completed", JValue.str "failed"]).2.2.2.2
      [JValue.str "failed", JValue.str "completed"]
      (List.Perm.swap (JValue.str "failed") (JValue.str "completed") [])⟩

/-- C5: in the request built by the client generate_video, a provided
webhook url places the webhook object with its url and its secret
(defaulting to the empty string) at the top level of the body, sibling
to params; no webhook key ever appears inside params; and with no
webhook url no webhook key appears at the top level either. -/
theorem generate_video_webhook_sibling (c : HiggsfieldClient)
    (image_url motion_id prompt model : String) (ws : Option String) :
    (∀ u, u ≠ "" →
      bodyField (c.generate_video image_url motion_id prompt model (some u) ws) "webhook"
          = some (.obj [("url", .str u), ("secret", .str (strOrEmpty ws))])
      ∧ bodyParamsField (c.generate_video image_url motion_id prompt model (some u) ws)
          "webhook" = none)
    ∧ bodyField (c.generate_video image_url motion_id prompt model none ws) "webhook"
        = none := by
  refine ⟨fun u hu => ?_, ?_⟩
  · have hw : optTruthy (some u) = true := by simp [optTruthy, hu]
    constructor <;>
      simp [HiggsfieldClient.generate_video, bodyField, bodyParamsField, jGet, lookupField,
        strOrEmpty, hw]
  · have hwn : optTruthy none = false := rfl
    simp [HiggsfieldClient.generate_video, bodyField, jGet, lookupField, hwn]

/-- Witness for C5 at a concrete webhook url and secret. -/
theorem generate_video_webhook_sibling_witness :
    bodyField ((HiggsfieldClient.init "k" "s" defaultBaseUrl).generate_video
        "https://img" "m1" "p" "dop-preview" (some "https://hook") (some "sec")) "webhook"
      = some (.obj [("url", .str "https://hook"), ("secret", .str "sec")]) :=
  ((generate_video_webhook_sibling (HiggsfieldClient.init "k" "s" defaultBaseUrl)
      "https://img" "m1" "p" "dop-preview" (some "sec")).1 "https://hook" (by decide)).1

/-- C6: in the request built by the client generate_image, a provided
webhook url places the webhook object with its url and its secret
(defaulting to the empty string) inside the params object, never at the
top level of the body; and with no webhook url no webhook key appears
inside params.  This placement is the inverse of generate_video. -/
theorem generate_image_webhook_nested (c : HiggsfieldClient)
    (prompt quality : String) (batch_size : Int)
    (custom_reference_id style_id : Option String)
    (width_and_height : String) (enhance_prompt : Bool) (ws : Option String) :
    (∀ u, u ≠ "" →
      bodyParamsField (c.generate_image prompt quality batch_size custom_reference_id
          style_id width_and_height enhance_prompt (some u) ws) "webhook"
          = some (.obj [("url", .str u), ("secret", .str (strOrEmpty ws))])
      ∧ bodyField (c.generate_image prompt quality batch_size custom_reference_id
          style_id width_and_height enhance_prompt (some u) ws) "webhook" = none)
    ∧ bodyParamsField (c.generate_image prompt quality batch_size custom_reference_id
        style_id width_and_height enhance_prompt none ws) "webhook" = none := by
  refine ⟨fun u hu => ?_, ?_⟩
  · have hw : optTruthy (some u) = true := by simp [optTruthy, hu]
    constructor <;>
      cases hc : optTruthy custom_reference_id <;> cases hs : optTruthy style_id <;>
        simp [HiggsfieldClient.generate_image, bodyField, bodyParamsField, jGet, lookupField,
          strOrEmpty, hw, hc, hs]
  · have hwn : optTruthy none = false := rfl
    cases hc : optTruthy custom_reference_id <;> cases hs : optTruthy style_id <;>
      simp [HiggsfieldClient.generate_image, bodyParamsField, jGet, lookupField, hwn, hc, hs]

/-- Witness for C6 at a concrete webhook url with an absent secret. -/
theorem generate_image_webhook_nested_witness :
    bodyParamsField ((HiggsfieldClient.init "k" "s" defaultBaseUrl).generate_image
        "a cat" "1080p" 1 none none "2048x1152" false (some "https://hook") none) "webhook"
      = some (.obj [("url", .str "https://hook"), ("secret", .str "")]) :=
  ((generate_image_webhook_nested (HiggsfieldClient.init "k" "s" defaultBaseUrl)
      "a cat" "1080p" 1 none none "2048x1152" false none).1 "https://hook" (by decide)).1

/-- C7: when the talking-head submission succeeds with a job-set
carrying id, type, created_at and jobs, the generate_talking_head tool
returns a success envelope containing job_set_id, job_type, created_at,
jobs, duration and quality; when the submission fails it returns an
envelope with success false and the error message. -/
theorem generate_talking_head_envelope (quality : String) (duration : Int)
    (r i t ca js : JValue)
    (hi : jGet r "id" = some i) (ht : jGet r "type" = some t)
    (hca : jGet r "created_at" = some ca) (hjs : jGet r "jobs" = some js) :
    (jGet (generate_talking_head quality duration (.ok r)) "success" = some (.bool true)
    ∧ jGet (generate_talking_head quality duration (.ok r)) "job_set_id" = some i
    ∧ jGet (generate_talking_head quality duration (.ok r)) "job_type" = some t
    ∧ jGet (generate_talking_head quality duration (.ok r)) "created_at" = some ca
    ∧ jGet (generate_talking_head quality duration (.ok r)) "jobs" = some js
    ∧ jGet (generate_talking_head quality duration (.ok r)) "duration"
        = some (.num duration)
    ∧ jGet (generate_talking_head quality duration (.ok r)) "quality"
        = some (.str quality))
    ∧ ∀ e : ClientError,
      jGet (generate_talking_head quality duration (.error e)) "success"
          = some (.bool false)
      ∧ jGet (generate_talking_head quality duration (.error e)) "error"
          = some (.str (errString e)) := by
  constructor
  · simp only [generate_talking_head, hi, ht, hca, hjs]
    simp [jGet, lookupField]
  · intro e
    exact ⟨rfl, rfl⟩

/-- Witness for C7 at a concrete job-set response. -/
theorem generate_talking_head_envelope_witness :
    jGet (generate_talking_head "high" 5 (.ok (JValue.obj [
        ("id", .str "j9"),
        ("type", .str "speak"),
        ("created_at", .str "2024-02-02T00:00:00Z"),
        ("jobs", .arr [])]))) "job_set_id" = some (.str "j9") :=
  ((generate_talking_head_envelope "high" 5
      (JValue.obj [
        ("id", .str "j9"),
        ("type", .str "speak"),
        ("created_at", .str "2024-02-02T00:00:00Z"),
        ("jobs", .arr [])])
      (.str "j9") (.str "speak") (.str "2024-02-02T00:00:00Z") (.arr [])
      rfl rfl rfl rfl).1).2.1

/-- C8: for every pair of credential strings, empty included, client
construction is a total function whose header dict is exactly the four
entries api-key, secret, content-type and accept, and every one of the
nine client methods attaches precisely this header dict, unmodified, to
its outbound request. -/
theorem client_headers_invariant (api_key secret base_url : String) :
    (HiggsfieldClient.init api_key secret base_url).headers
        = [("hf-api-key", api_key), ("hf-secret", secret),
           ("Content-Type", "application/json"), ("Accept", "application/json")]
    ∧ (HiggsfieldClient.init api_key secret base_url).headers.length = 4
    ∧ (∀ prompt quality batch_size cref sid wah ep wu ws,
        ((HiggsfieldClient.init api_key secret base_url).generate_image prompt quality
            batch_size cref sid wah ep wu ws).headers
          = (HiggsfieldClient.init api_key secret base_url).headers)
    ∧ (∀ image_url motion_id prompt model wu ws,
        ((HiggsfieldClient.init api_key secret base_url).generate_video image_url
            motion_id prompt model wu ws).headers
          = (HiggsfieldClient.init api_key secret base_url).headers)
    ∧ (∀ name image_urls,
        ((HiggsfieldClient.init api_key secret base_url).create_character name
            image_urls).headers
          = (HiggsfieldClient.init api_key secret base_url).headers)
    ∧ (∀ job_set_id,
        ((HiggsfieldClient.init api_key secret base_url).get_job_results
            job_set_id).headers
          = (HiggsfieldClient.init api_key secret base_url).headers)
    ∧ ((HiggsfieldClient.init api_key secret base_url).list_styles).headers
        = (HiggsfieldClient.init api_key secret base_url).headers
    ∧ ((HiggsfieldClient.init api_key secret base_url).list_motions).headers
        = (HiggsfieldClient.init api_key secret base_url).headers
    ∧ (∀ page page_size,
        ((HiggsfieldClient.init api_key secret base_url).list_characters page
            page_size).headers
          = (HiggsfieldClient.init api_key secret base_url).headers)
    ∧ (∀ character_id,
        ((HiggsfieldClient.init api_key secret base_url).get_character
            character_id).headers
          = (HiggsfieldClient.init api_key secret base_url).headers)
    ∧ (∀ character_id,
        ((HiggsfieldClient.init api_key secret base_url).delete_character
            character_id).headers
          = (HiggsfieldClient.init api_key secret base_url).headers) :=
  ⟨rfl, rfl,
   fun _ _ _ _ _ _ _ _ _ => rfl,
   fun _ _ _ _ _ _ => rfl,
   fun _ _ => rfl,
   fun _ => rfl,
   rfl,
   rfl,
   fun _ _ => rfl,
   fun _ => rfl,
   fun _ => rfl⟩

/-- C9 counterexample: on the stub response of the scenario, the
generate_image tool does not yield the exact claimed envelope, because
the actual envelope additionally carries the fixed status field. -/
theorem generate_image_stub_envelope_counterexample :
    generate_image (.ok stubImageResponse) ≠ claimedImageEnvelope := by
  intro h
  have h2 := congrArg (fun v => jGet v "status") h
  simp [generate_image, stubImageResponse, claimedImageEnvelope, jGet, lookupField] at h2

/-- C9 amended: on the stub response the generate_image tool yields the
claimed envelope extended with the fixed status string between job_type
and created_at; all claimed fields carry exactly the claimed values. -/
theorem generate_image_stub_envelope :
    generate_image (.ok stubImageResponse)
      = .obj [
          ("success", .bool true),
          ("job_set_id", .str "j1"),
          ("job_type", .str "soul"),
          ("status", .str "Job started - use get_generation_status to check completion"),
          ("created_at", .str "2024-01-01T00:00:00Z"),
          ("jobs", .arr [.obj [("id", .str "job1"), ("status", .str "queued")]])] := rfl

/-- C10: on every job set whose jobs list is empty, whatever its id,
type and created_at values, get_generation_status returns the success
envelope with an empty jobs array and the completion message, which
differs from the still-processing message: the all-completed check
holds vacuously on the empty list. -/
theorem get_generation_status_empty_jobs (r i t ca : JValue)
    (hi : jGet r "id" = some i) (ht : jGet r "type" = some t)
    (hca : jGet r "created_at" = some ca) (hjs : jGet r "jobs" = some (.arr [])) :
    get_generation_status (.ok r)
      = .obj [
          ("success", .bool true),
          ("job_set_id", i),
          ("type", t),
          ("created_at", ca),
          ("jobs", .arr []),
          ("message", .str completedMsg)]
    ∧ completedMsg ≠ processingMsg := by
  constructor
  · simp only [get_generation_status, hi, ht, hca, hjs]
    rfl
  · decide

/-- Witness for C10 at a concrete empty job set. -/
theorem get_generation_status_empty_jobs_witness :
    get_generation_status (.ok (.obj [
        ("id", .str "j1"),
        ("type", .str "soul"),
        ("created_at", .str "2024-01-01T00:00:00Z"),
        ("jobs", .arr [])]))
      = .obj [
          ("success", .bool true),
          ("job_set_id", .str "j1"),
          ("type", .str "soul"),
          ("created_at", .str "2024-01-01T00:00:00Z"),
          ("jobs", .arr []),
          ("message", .str completedMsg)]
    ∧ completedMsg ≠ processingMsg :=
  get_generation_status_empty_jobs
    (.obj [
      ("id", .str "j1"),
      ("type", .str "soul"),
      ("created_at", .str "2024-01-01T00:00:00Z"),
      ("jobs", .arr [])])
    (.str "j1") (.str "soul") (.str "2024-01-01T00:00:00Z")
    rfl rfl rfl rfl
